import Mathlib

/-!
Verification development for the `MultiComboBox` widget of the smarthr-ui
component library.  The definitions below are a shallow embedding of the
component in `src/unnamed/part_000` (`MultiComboBox.tsx`): the selection
toggle (`handleSelect` / `handleDelete`), the focused/blurred state machine
(`focus` / `blur` / `handleKeyDown` / container `onClick`), the
controlled/uncontrolled input value, and the ARIA attributes of the text
entry.  The helper hooks `useFocusControl` and `useListBox` are not part of
the supplied sources; the small pieces of them the component calls are
modelled from the specification and marked as such in their doc comments.
-/

/-- An option of the combo box: `ComboBoxItem<T> = { label: string, value: T }`
(the `data` field is irrelevant to the claims and omitted). -/
structure ComboBoxItem (T : Type) where
  label : String
  value : T
deriving DecidableEq, Repr

/-- An entry of the `selectedItems` prop:
`ComboBoxItem<T> & { deletable?: boolean }`.  `deletable = none` models an
absent (`undefined`) flag. -/
structure SelectedItem (T : Type) extends ComboBoxItem T where
  deletable : Option Bool := none
deriving DecidableEq, Repr

/-- Injection of a plain option into a selected entry, as performed by
`selectedItems.concat(selected)`: the appended object carries no
`deletable` property. -/
def ComboBoxItem.toSelected {T : Type} (item : ComboBoxItem T) : SelectedItem T :=
  { toComboBoxItem := item, deletable := none }

/-- A callback invocation emitted by the selection toggle, in order. -/
inductive CBEvent (T : Type) where
  | onDelete (item : ComboBoxItem T)
  | onSelect (item : ComboBoxItem T)
  | onChangeSelected (items : List (SelectedItem T))
deriving DecidableEq, Repr

/-- The predicate used by `handleDelete`'s filter:
`selected.label !== item.label || selected.value !== item.value`. -/
def keepOnDelete {T : Type} [DecidableEq T] (item : ComboBoxItem T)
    (selected : SelectedItem T) : Bool :=
  selected.label != item.label || selected.value != item.value

/-- `handleDelete` (src/unnamed/part_000, lines 176-187): fires
`onDelete(item)` then `onChangeSelected(selectedItems.filter(...))`,
keeping the entries that differ from `item` in label or in value. -/
def handleDelete {T : Type} [DecidableEq T]
    (selectedItems : List (SelectedItem T)) (item : ComboBoxItem T) :
    List (CBEvent T) :=
  [CBEvent.onDelete item,
   CBEvent.onChangeSelected (selectedItems.filter (keepOnDelete item))]

/-- The predicate used by `handleSelect`'s find:
`item.label === selected.label && item.value === selected.value`. -/
def matchesSelected {T : Type} [DecidableEq T] (selected : ComboBoxItem T)
    (item : SelectedItem T) : Bool :=
  item.label == selected.label && item.value == selected.value

/-- `handleSelect` (src/unnamed/part_000, lines 188-203): looks up the first
entry of `selectedItems` matching the candidate on (label, value); if one
exists and its `deletable` flag is not literally `false`, delegates to
`handleDelete`; if one exists with `deletable === false`, does nothing;
otherwise fires `onSelect(selected)` then
`onChangeSelected(selectedItems.concat(selected))`. -/
def handleSelect {T : Type} [DecidableEq T]
    (selectedItems : List (SelectedItem T)) (selected : ComboBoxItem T) :
    List (CBEvent T) :=
  match selectedItems.find? (matchesSelected selected) with
  | some matchedSelectedItem =>
      if matchedSelectedItem.deletable ≠ some false then
        handleDelete selectedItems selected
      else
        []
  | none =>
      [CBEvent.onSelect selected,
       CBEvent.onChangeSelected (selectedItems ++ [selected.toSelected])]

/-! ## Widget state machine: focused/blurred, focus coordinator, key handling -/

/-- The transient UI state held by the widget instance: `isFocused`,
`isComposing` and `uncontrolledInputValue` are the `useState` hooks of
`MultiComboBox`; `focusIndex` is the Focus Coordinator state owned by
`useFocusControl` (`some i` = chip i's delete button, `none` = the text
entry / no chip focused); `activeOption` is the Listbox Controller's
highlighted index owned by `useListBox`. -/
structure WidgetState where
  isFocused : Bool
  isComposing : Bool
  uncontrolledInputValue : String
  focusIndex : Option Nat
  activeOption : Option Nat
deriving DecidableEq, Repr

/-- A focus/blur callback invocation emitted by the widget. -/
inductive WidgetEvent where
  | onFocus
  | onBlur
deriving DecidableEq, Repr

/-- Modelled from the spec: `useFocusControl`'s `resetDeletionButtonFocus`
(the hook's source is not in src/). "reset: clears focus to no chip focused
(text entry default)". -/
def resetDeletionButtonFocus (_fi : Option Nat) : Option Nat :=
  none

/-- Modelled from the spec: `useFocusControl`'s `focusPrevDeletionButton`
(the hook's source is not in src/). "focusPrev: moves the logical focus
index one step toward index 0 (clamped at 0); if current focus is the text
entry, moves to the last chip."  `numChips` is the chip count. -/
def focusPrevDeletionButton (numChips : Nat) (fi : Option Nat) : Option Nat :=
  match fi with
  | none => if numChips = 0 then none else some (numChips - 1)
  | some i => some (i - 1)

/-- Modelled from the spec: `useFocusControl`'s `focusNextDeletionButton`
(the hook's source is not in src/). "focusNext: moves one step toward the
text entry sentinel; at the last chip, moves to the text-entry sentinel." -/
def focusNextDeletionButton (numChips : Nat) (fi : Option Nat) : Option Nat :=
  match fi with
  | none => none
  | some i => if i + 1 ≥ numChips then none else some (i + 1)

/-- Modelled from the spec: `useListBox`'s `handleKeyDown` (the hook's
source is not in src/).  Arrow-down/up move the active option forward/
backward through the visible options without wraparound; an empty option
set forces a null active option; other keys leave the listbox state alone.
The Enter-commit path invokes `handleSelect` and is modelled separately. -/
def handleListBoxKeyDown (numOptions : Nat) (key : String) (st : WidgetState) :
    WidgetState :=
  if numOptions = 0 then
    { st with activeOption := none }
  else if key = "Down" ∨ key = "ArrowDown" then
    let next := match st.activeOption with
                | none => 0
                | some i => min (i + 1) (numOptions - 1)
    { st with activeOption := some next }
  else if key = "Up" ∨ key = "ArrowUp" then
    let prev := match st.activeOption with
                | none => 0
                | some i => i - 1
    { st with activeOption := some prev }
  else
    st

/-- `focus` (src/unnamed/part_000, lines 231-234): fires `onFocus` and sets
`isFocused` to true. -/
def focus (st : WidgetState) : WidgetState × List WidgetEvent :=
  ({ st with isFocused := true }, [WidgetEvent.onFocus])

/-- `blur` (src/unnamed/part_000, lines 235-240): returns immediately when
not focused; otherwise fires `onBlur`, clears `isFocused` and resets the
deletion-button focus. -/
def blur (st : WidgetState) : WidgetState × List WidgetEvent :=
  if !st.isFocused then
    (st, [])
  else
    ({ st with isFocused := false,
               focusIndex := resetDeletionButtonFocus st.focusIndex },
     [WidgetEvent.onBlur])

/-- `handleKeyDown` (src/unnamed/part_000, lines 260-296): returns
untouched while composing; on Escape/Esc blurs; on Tab blurs (after
imperatively focusing the input, which has no state counterpart); on
Left/ArrowLeft and Right/ArrowRight moves the deletion-button focus; on any
other key refocuses the input and resets the deletion-button focus; in all
non-composing branches, finally forwards the event to the listbox handler. -/
def handleKeyDown (numChips numOptions : Nat) (key : String) (st : WidgetState) :
    WidgetState × List WidgetEvent :=
  if st.isComposing then
    (st, [])
  else
    let r :=
      if key = "Escape" ∨ key = "Esc" then
        blur st
      else if key = "Tab" then
        blur st
      else if key = "Left" ∨ key = "ArrowLeft" then
        ({ st with focusIndex := focusPrevDeletionButton numChips st.focusIndex }, [])
      else if key = "Right" ∨ key = "ArrowRight" then
        ({ st with focusIndex := focusNextDeletionButton numChips st.focusIndex }, [])
      else
        ({ st with focusIndex := resetDeletionButtonFocus st.focusIndex }, [])
    (handleListBoxKeyDown numOptions key r.1, r.2)

/-- Container `onClick` (src/unnamed/part_000, lines 331-339): calls
`focus()` only when the click target is not inside a delete button, the
widget is not disabled and it is not already focused. -/
def containerOnClick (targetInDeleteButton disabled : Bool) (st : WidgetState) :
    WidgetState × List WidgetEvent :=
  if !targetInDeleteButton && !disabled && !st.isFocused then
    focus st
  else
    (st, [])

/-- `isInputControlled` (src/unnamed/part_000, lines 163-166): the text
value is host-controlled exactly when the `inputValue` prop is defined. -/
def isInputControlled (controlledInputValue : Option String) : Bool :=
  controlledInputValue.isSome

/-- `inputValue` (src/unnamed/part_000, line 168): the displayed text value
is the controlled prop when present, else the uncontrolled state. -/
def inputValue (controlledInputValue : Option String) (st : WidgetState) : String :=
  match controlledInputValue with
  | some v => v
  | none => st.uncontrolledInputValue

/-- The `useLayoutEffect` body (src/unnamed/part_000, lines 250-258), run
whenever `isFocused`, `isInputControlled` or `selectedItems` change: clears
the uncontrolled text value unless the input is controlled (the imperative
`inputRef.current.focus()` has no state counterpart). -/
def focusLayoutEffect (controlledInputValue : Option String) (st : WidgetState) :
    WidgetState :=
  if !isInputControlled controlledInputValue then
    { st with uncontrolledInputValue := "" }
  else
    st

/-- The ARIA attributes rendered on the text entry
(src/unnamed/part_000, lines 368-402). -/
structure InputAria where
  role : String
  ariaHaspopup : String
  ariaExpanded : Bool
  ariaActivedescendant : Option String
  ariaControls : String
deriving DecidableEq, Repr

/-- The text entry's ARIA attributes as rendered (src/unnamed/part_000,
lines 393-397): `role="combobox"`, `aria-activedescendant={activeOption?.id}`,
`aria-controls={listBoxId selectedListId}`, `aria-haspopup="listbox"`,
`aria-expanded={isFocused}`. -/
def renderInputAria (isFocused : Bool) (activeOptionId : Option String)
    (listBoxId selectedListId : String) : InputAria :=
  { role := "combobox"
  , ariaHaspopup := "listbox"
  , ariaExpanded := isFocused
  , ariaActivedescendant := activeOptionId
  , ariaControls := listBoxId ++ " " ++ selectedListId }

/-! ## Helper lemmas about the selection toggle -/

theorem find?_matches_eq_none {T : Type} [DecidableEq T]
    {sel : List (SelectedItem T)} {cand : ComboBoxItem T}
    (h : ∀ s ∈ sel, ¬(s.label = cand.label ∧ s.value = cand.value)) :
    sel.find? (matchesSelected cand) = none := by
  rw [List.find?_eq_none]
  intro s hs
  simpa [matchesSelected, not_and] using h s hs

theorem handleSelect_of_none {T : Type} [DecidableEq T]
    {sel : List (SelectedItem T)} {cand : ComboBoxItem T}
    (hfind : sel.find? (matchesSelected cand) = none) :
    handleSelect sel cand =
      [CBEvent.onSelect cand, CBEvent.onChangeSelected (sel ++ [cand.toSelected])] := by
  simp [handleSelect, hfind]

theorem handleSelect_of_some {T : Type} [DecidableEq T]
    {sel : List (SelectedItem T)} {cand : ComboBoxItem T} {m : SelectedItem T}
    (hfind : sel.find? (matchesSelected cand) = some m)
    (hdel : m.deletable ≠ some false) :
    handleSelect sel cand = handleDelete sel cand := by
  simp [handleSelect, hfind, hdel]

theorem filter_keepOnDelete_eq_self {T : Type} [DecidableEq T]
    {sel : List (SelectedItem T)} {cand : ComboBoxItem T}
    (h : ∀ s ∈ sel, ¬(s.label = cand.label ∧ s.value = cand.value)) :
    sel.filter (keepOnDelete cand) = sel := by
  rw [List.filter_eq_self]
  intro s hs
  have hns := h s hs
  simp only [keepOnDelete, Bool.or_eq_true, bne_iff_ne, ne_eq]
  tauto

/-! ## Helper lemmas about the state machine -/

theorem handleListBoxKeyDown_preserves (numOptions : Nat) (key : String)
    (st : WidgetState) :
    (handleListBoxKeyDown numOptions key st).isFocused = st.isFocused ∧
    (handleListBoxKeyDown numOptions key st).focusIndex = st.focusIndex := by
  unfold handleListBoxKeyDown
  split
  · exact ⟨rfl, rfl⟩
  · split
    · exact ⟨rfl, rfl⟩
    · split
      · exact ⟨rfl, rfl⟩
      · exact ⟨rfl, rfl⟩

theorem handleKeyDown_escape (numChips numOptions : Nat) (key : String)
    (st : WidgetState) (hc : st.isComposing = false)
    (hk : key = "Escape" ∨ key = "Esc") :
    handleKeyDown numChips numOptions key st
      = (handleListBoxKeyDown numOptions key (blur st).1, (blur st).2) := by
  rcases hk with hk | hk <;> subst hk <;> simp [handleKeyDown, hc]

/-! ## Claims about the selection toggle -/

/-- C1 counterexample: the claim quantifies existentially ("some entry of
selectedItems ... and that entry's deletable flag is not explicitly false"),
but `handleSelect` checks the `deletable` flag of the FIRST (label, value)
match only.  With `selectedItems = [{a,0,deletable:false}, {a,0}]` and
candidate `{a,0}`, an entry matching with `deletable ≠ false` exists (the
second one), yet the toggle is a no-op instead of firing
`onDelete`/`onChangeSelected`. -/
theorem c1_counterexample :
    (∃ s ∈ ([⟨⟨"a", 0⟩, some false⟩, ⟨⟨"a", 0⟩, none⟩] : List (SelectedItem Nat)),
        s.label = "a" ∧ s.value = 0 ∧ s.deletable ≠ some false) ∧
    handleSelect
        ([⟨⟨"a", 0⟩, some false⟩, ⟨⟨"a", 0⟩, none⟩] : List (SelectedItem Nat))
        ⟨"a", 0⟩ ≠
      [CBEvent.onDelete ⟨"a", 0⟩,
       CBEvent.onChangeSelected
         (([⟨⟨"a", 0⟩, some false⟩, ⟨⟨"a", 0⟩, none⟩] :
             List (SelectedItem Nat)).filter (keepOnDelete ⟨"a", 0⟩))] := by
  decide

/-- C1 (amended): if the FIRST entry of `selectedItems` matching the
candidate on (label, value) has its `deletable` flag not explicitly false,
the toggle fires `onDelete` with the candidate first and then
`onChangeSelected` with `selectedItems` minus every (label, value) match. -/
theorem c1_delete_branch {T : Type} [DecidableEq T]
    (sel : List (SelectedItem T)) (cand : ComboBoxItem T) (m : SelectedItem T)
    (hfind : sel.find? (matchesSelected cand) = some m)
    (hdel : m.deletable ≠ some false) :
    handleSelect sel cand =
      [CBEvent.onDelete cand,
       CBEvent.onChangeSelected (sel.filter (keepOnDelete cand))] := by
  rw [handleSelect_of_some hfind hdel]
  rfl

/-- Witness for C1 (amended) at a concrete input. -/
theorem c1_delete_branch_witness :
    handleSelect ([⟨⟨"a", 0⟩, none⟩] : List (SelectedItem Nat)) ⟨"a", 0⟩ =
      [CBEvent.onDelete ⟨"a", 0⟩,
       CBEvent.onChangeSelected
         (([⟨⟨"a", 0⟩, none⟩] : List (SelectedItem Nat)).filter
           (keepOnDelete ⟨"a", 0⟩))] :=
  c1_delete_branch _ _ ⟨⟨"a", 0⟩, none⟩ (by decide) (by decide)

/-- C2: when no entry of `selectedItems` matches the candidate on both
label and value, the toggle fires `onSelect` with the candidate first and
then `onChangeSelected` with exactly `selectedItems` with the candidate
appended at the end. -/
theorem c2_select_branch {T : Type} [DecidableEq T]
    (sel : List (SelectedItem T)) (cand : ComboBoxItem T)
    (h : ∀ s ∈ sel, ¬(s.label = cand.label ∧ s.value = cand.value)) :
    handleSelect sel cand =
      [CBEvent.onSelect cand, CBEvent.onChangeSelected (sel ++ [cand.toSelected])] :=
  handleSelect_of_none (find?_matches_eq_none h)

/-- Witness for C2 at a concrete input. -/
theorem c2_select_branch_witness :
    handleSelect ([⟨⟨"b", 1⟩, none⟩] : List (SelectedItem Nat)) ⟨"a", 0⟩ =
      [CBEvent.onSelect ⟨"a", 0⟩,
       CBEvent.onChangeSelected
         ([⟨⟨"b", 1⟩, none⟩] ++ [(⟨"a", 0⟩ : ComboBoxItem Nat).toSelected])] :=
  c2_select_branch _ _ (by decide)

/-- C3: when the entry matched by the toggle (the first (label, value)
match) has `deletable === false`, the toggle is a no-op: no callback fires. -/
theorem c3_locked_noop {T : Type} [DecidableEq T]
    (sel : List (SelectedItem T)) (cand : ComboBoxItem T) (m : SelectedItem T)
    (hfind : sel.find? (matchesSelected cand) = some m)
    (hdel : m.deletable = some false) :
    handleSelect sel cand = [] := by
  simp [handleSelect, hfind, hdel]

/-- Witness for C3 at a concrete input. -/
theorem c3_locked_noop_witness :
    handleSelect ([⟨⟨"a", 0⟩, some false⟩] : List (SelectedItem Nat)) ⟨"a", 0⟩ = [] :=
  c3_locked_noop _ _ ⟨⟨"a", 0⟩, some false⟩ (by decide) (by decide)

/-- C4: select-then-reselect round trip.  If no entry of `selectedItems`
matches the option and the option's `deletable` is unset, the first toggle
yields `selectedItems ++ [option]` and toggling again against that array
yields exactly the original `selectedItems`. -/
theorem c4_round_trip {T : Type} [DecidableEq T]
    (sel : List (SelectedItem T)) (cand : ComboBoxItem T)
    (h : ∀ s ∈ sel, ¬(s.label = cand.label ∧ s.value = cand.value)) :
    handleSelect sel cand =
      [CBEvent.onSelect cand, CBEvent.onChangeSelected (sel ++ [cand.toSelected])] ∧
    handleSelect (sel ++ [cand.toSelected]) cand =
      [CBEvent.onDelete cand, CBEvent.onChangeSelected sel] := by
  have hnone := find?_matches_eq_none h
  refine ⟨handleSelect_of_none hnone, ?_⟩
  have hfind2 : (sel ++ [cand.toSelected]).find? (matchesSelected cand)
      = some cand.toSelected := by
    rw [List.find?_append, hnone]
    simp [List.find?_cons, matchesSelected, ComboBoxItem.toSelected]
  rw [handleSelect_of_some hfind2 (by simp [ComboBoxItem.toSelected])]
  have hfilter : (sel ++ [cand.toSelected]).filter (keepOnDelete cand) = sel := by
    rw [List.filter_append, filter_keepOnDelete_eq_self h]
    simp [keepOnDelete, ComboBoxItem.toSelected]
  simp [handleDelete, hfilter]

/-- Witness for C4 at a concrete input. -/
theorem c4_round_trip_witness :
    (handleSelect ([⟨⟨"b", 1⟩, none⟩] : List (SelectedItem Nat)) ⟨"a", 0⟩ =
      [CBEvent.onSelect ⟨"a", 0⟩,
       CBEvent.onChangeSelected
         ([⟨⟨"b", 1⟩, none⟩] ++ [(⟨"a", 0⟩ : ComboBoxItem Nat).toSelected])]) ∧
    (handleSelect
        ([⟨⟨"b", 1⟩, none⟩] ++ [(⟨"a", 0⟩ : ComboBoxItem Nat).toSelected]) ⟨"a", 0⟩ =
      [CBEvent.onDelete ⟨"a", 0⟩, CBEvent.onChangeSelected [⟨⟨"b", 1⟩, none⟩]]) :=
  c4_round_trip _ _ (by decide)

/-- C9: every `onChangeSelected` payload emitted by `handleDelete` contains
no entry matching the deleted item on both label and value — duplicates are
all removed at once, not only the first match. -/
theorem c9_delete_removes_all {T : Type} [DecidableEq T]
    (sel : List (SelectedItem T)) (x : ComboBoxItem T) (l : List (SelectedItem T))
    (hmem : CBEvent.onChangeSelected l ∈ handleDelete sel x) :
    ∀ s ∈ l, ¬(s.label = x.label ∧ s.value = x.value) := by
  simp only [handleDelete, List.mem_cons, List.mem_singleton, reduceCtorEq,
    CBEvent.onChangeSelected.injEq, false_or] at hmem
  rcases hmem with hmem | hmem
  case inr => exact absurd hmem (List.not_mem_nil _)
  subst hmem
  intro s hs
  have hkeep := List.of_mem_filter hs
  simp only [keepOnDelete, Bool.or_eq_true, bne_iff_ne, ne_eq] at hkeep
  tauto

/-- Witness for C9: deleting `{a,0}` from a list holding two duplicate
entries removes both; the surviving entry does not match. -/
theorem c9_delete_removes_all_witness :
    ¬((⟨⟨"b", 1⟩, none⟩ : SelectedItem Nat).label = "a" ∧
      (⟨⟨"b", 1⟩, none⟩ : SelectedItem Nat).value = 0) :=
  c9_delete_removes_all
    ([⟨⟨"a", 0⟩, none⟩, ⟨⟨"b", 1⟩, none⟩, ⟨⟨"a", 0⟩, some true⟩] :
      List (SelectedItem Nat))
    ⟨"a", 0⟩ [⟨⟨"b", 1⟩, none⟩] (by decide) ⟨⟨"b", 1⟩, none⟩ (by decide)

/-! ## Claims about the state machine and the render -/

/-- C5: with composition not in progress, pressing Escape while Focused
transitions the widget to Blurred, resets the deletion-button focus and
fires `onBlur` exactly once; pressing Escape while already Blurred fires
`onBlur` zero times. -/
theorem c5_escape_blur (numChips numOptions : Nat) (key : String)
    (st : WidgetState) (hc : st.isComposing = false)
    (hk : key = "Escape" ∨ key = "Esc") :
    (st.isFocused = true →
      (handleKeyDown numChips numOptions key st).1.isFocused = false ∧
      (handleKeyDown numChips numOptions key st).1.focusIndex = none ∧
      (handleKeyDown numChips numOptions key st).2 = [WidgetEvent.onBlur]) ∧
    (st.isFocused = false →
      (handleKeyDown numChips numOptions key st).2 = []) := by
  have hmain := handleKeyDown_escape numChips numOptions key st hc hk
  constructor
  · intro hf
    have hblur : blur st
        = ({ st with isFocused := false, focusIndex := none }, [WidgetEvent.onBlur]) := by
      simp [blur, hf, resetDeletionButtonFocus]
    rw [hmain, hblur]
    refine ⟨?_, ?_, rfl⟩
    · rw [(handleListBoxKeyDown_preserves numOptions key _).1]
    · rw [(handleListBoxKeyDown_preserves numOptions key _).2]
  · intro hf
    have hblur : blur st = (st, []) := by simp [blur, hf]
    rw [hmain, hblur]

/-- Witness for C5 at a concrete focused state with Escape. -/
theorem c5_escape_blur_witness :
    ((WidgetState.mk true false "" (some 0) none).isFocused = true →
      (handleKeyDown 2 3 "Escape" (WidgetState.mk true false "" (some 0) none)).1.isFocused
          = false ∧
      (handleKeyDown 2 3 "Escape" (WidgetState.mk true false "" (some 0) none)).1.focusIndex
          = none ∧
      (handleKeyDown 2 3 "Escape" (WidgetState.mk true false "" (some 0) none)).2
          = [WidgetEvent.onBlur]) ∧
    ((WidgetState.mk true false "" (some 0) none).isFocused = false →
      (handleKeyDown 2 3 "Escape" (WidgetState.mk true false "" (some 0) none)).2 = []) :=
  c5_escape_blur 2 3 "Escape" (WidgetState.mk true false "" (some 0) none)
    rfl (Or.inl rfl)

/-- C6: while composition (IME) is in progress, the key handler is entirely
suppressed for every key: the state is unchanged and no callback fires. -/
theorem c6_composition_suppresses (numChips numOptions : Nat) (key : String)
    (st : WidgetState) (hc : st.isComposing = true) :
    handleKeyDown numChips numOptions key st = (st, []) := by
  simp [handleKeyDown, hc]

/-- Witness for C6 at a concrete composing state with Escape. -/
theorem c6_composition_suppresses_witness :
    handleKeyDown 1 2 "Escape" (WidgetState.mk true true "x" none (some 1))
      = (WidgetState.mk true true "x" none (some 1), []) :=
  c6_composition_suppresses 1 2 "Escape" (WidgetState.mk true true "x" none (some 1)) rfl

/-- C7: the layout effect run on entering Focused clears the uncontrolled
text value when the `inputValue` prop is undefined, and leaves the
displayed input value unchanged when the text value is host-controlled. -/
theorem c7_focus_clears_uncontrolled (controlledInputValue : Option String)
    (st : WidgetState) :
    (controlledInputValue = none →
      (focusLayoutEffect controlledInputValue st).uncontrolledInputValue = "") ∧
    (∀ v, controlledInputValue = some v →
      inputValue controlledInputValue (focusLayoutEffect controlledInputValue st)
        = inputValue controlledInputValue st) := by
  constructor
  · intro h
    subst h
    simp [focusLayoutEffect, isInputControlled]
  · intro v h
    subst h
    simp [focusLayoutEffect, isInputControlled, inputValue]

/-- Witness for C7: an uncontrolled state with text "abc" is cleared; a
controlled state keeps displaying the controlled value. -/
theorem c7_focus_clears_uncontrolled_witness :
    (focusLayoutEffect none (WidgetState.mk true false "abc" none none)).uncontrolledInputValue
        = "" ∧
    inputValue (some "z")
        (focusLayoutEffect (some "z") (WidgetState.mk true false "abc" none none))
      = inputValue (some "z") (WidgetState.mk true false "abc" none none) :=
  ⟨(c7_focus_clears_uncontrolled none (WidgetState.mk true false "abc" none none)).1 rfl,
   (c7_focus_clears_uncontrolled (some "z") (WidgetState.mk true false "abc" none none)).2
     "z" rfl⟩

/-- C8: in every rendered state the text entry carries `role=combobox` and
`aria-haspopup=listbox`, `aria-expanded` equals the Focused state,
`aria-activedescendant` equals the active option's identifier (absent when
null), and `aria-controls` references the listbox id and the selected-chip
list id. -/
theorem c8_aria_contract (isFocused : Bool) (activeOptionId : Option String)
    (listBoxId selectedListId : String) :
    (renderInputAria isFocused activeOptionId listBoxId selectedListId).role
        = "combobox" ∧
    (renderInputAria isFocused activeOptionId listBoxId selectedListId).ariaHaspopup
        = "listbox" ∧
    (renderInputAria isFocused activeOptionId listBoxId selectedListId).ariaExpanded
        = isFocused ∧
    (renderInputAria isFocused activeOptionId listBoxId selectedListId).ariaActivedescendant
        = activeOptionId ∧
    (renderInputAria isFocused activeOptionId listBoxId selectedListId).ariaControls
        = listBoxId ++ " " ++ selectedListId :=
  ⟨rfl, rfl, rfl, rfl, rfl⟩

/-- C10: while `disabled` is true, a container click is a no-op in every
state: no transition to Focused and no `onFocus` callback. -/
theorem c10_disabled_click_noop (targetInDeleteButton : Bool) (st : WidgetState) :
    containerOnClick targetInDeleteButton true st = (st, []) := by
  simp [containerOnClick]
